import Mathlib

/-!
Verification of the mw-mdma-fw firmware core against its specification.

The definitions below are a shallow embedding of the C sources:
  - src/slip.c / slip.h   : SLIP framing (byte-stuffing link framer)
  - src/flash.c / flash.h : flash command engine and polling algorithms
  - src/mdma-pr.h         : host protocol frame accessors
  - src/sys_fsm.c / sys_fsm.h : system state machine and command dispatcher

Machine integers are modelled as Nat (all relevant values stay far below
any wrap-around; masks are applied exactly where the C applies them).
Hardware reads (UART bytes, flash status reads) are modelled as explicit
input streams (List Nat); hardware writes and other side effects are
modelled as explicit action traces.  Busy-wait loops that the C performs
on a hardware read are modelled by structural recursion on the read
stream, returning Option: none models the C looping forever because the
hardware never produced the awaited status.
-/

namespace MdmaFw

/-! ## SLIP framing (src/slip.c, src/slip.h)

Special characters from slip.h. -/

def SLIP_SOF : Nat := 0xC0

def SLIP_ESC : Nat := 0xDB

def SLIP_SOF_ESC : Nat := 0xDC

def SLIP_ESC_ESC : Nat := 0xDD

/-- Numeric values of the SlipStat enum in slip.c (SLIP_ST_SOF = 0,
SLIP_ST_DATA, SLIP_ST_SOF_ESC, SLIP_ST_ESC_ESC, ...).  The receive code in
slip.c line 269 compares a received byte against the enum constant
SLIP_ST_ESC_ESC, so its numeric value matters. -/
def SLIP_ST_SOF : Nat := 0

def SLIP_ST_DATA : Nat := 1

def SLIP_ST_SOF_ESC : Nat := 2

def SLIP_ST_ESC_ESC : Nat := 3

/-- Wire bytes produced for the payload by the transmit state machine of
SlipFrameSendCont in its SLIP_ST_DATA / SLIP_ST_SOF_ESC / SLIP_ST_ESC_ESC
states: a payload SOF byte is sent as ESC SOF_ESC, a payload ESC byte as
ESC ESC_ESC, anything else verbatim. -/
def slipTxData : List Nat → List Nat
  | [] => []
  | b :: rest =>
    if b = SLIP_SOF then SLIP_ESC :: SLIP_SOF_ESC :: slipTxData rest
    else if b = SLIP_ESC then SLIP_ESC :: SLIP_ESC_ESC :: slipTxData rest
    else b :: slipTxData rest

/-- SlipFrameSendPoll with an inexhaustible timeout budget: starts in
SLIP_ST_SOF with sendEof = TRUE, so the wire stream is SOF, the stuffed
payload, then the EOF marker (which is the SOF character again). -/
def SlipFrameSendPoll (data : List Nat) : List Nat :=
  SLIP_SOF :: (slipTxData data ++ [SLIP_SOF])

/-- Result of SlipFrameRecvCont.  The C function returns a uint16_t code
(0 complete frame, 1 timeout, 2 buffer filled before EOF, 3 other
reception error) and writes the frame length through a pointer for codes
0, 2 and 3. -/
inductive SlipRecvResult where
  | done (length : Nat)
  | timeout
  | overflow (length : Nat)
  | protoErr (length : Nat)
deriving DecidableEq, Repr

/-- The numeric return code of SlipFrameRecvCont for each outcome. -/
def SlipRecvResult.code : SlipRecvResult → Nat
  | .done _ => 0
  | .timeout => 1
  | .overflow _ => 2
  | .protoErr _ => 3

/-- SlipFrameRecvCont of slip.c, as a function of the receiver state
(rxs, numeric as in the C enum), the bytes stored so far (whose length is
the C position d.rxb.pos), the buffer capacity d.rxb.length, and the
stream of bytes the UART will deliver.  An exhausted stream models the
timeout return (code 1).  The second component of the result is the final
content of the receive buffer.  Note: the branch for an escaped ESC
compares the received byte with the state-enum constant SLIP_ST_ESC_ESC,
exactly as slip.c line 269 does. -/
def SlipFrameRecvCont (maxLen : Nat) : Nat → List Nat → List Nat →
    SlipRecvResult × List Nat
  | _, buf, [] => (SlipRecvResult.timeout, buf)
  | rxs, buf, c :: rest =>
    if rxs = SLIP_ST_SOF then
      -- silently discard data until SOF received
      if c = SLIP_SOF then SlipFrameRecvCont maxLen SLIP_ST_DATA buf rest
      else SlipFrameRecvCont maxLen SLIP_ST_SOF buf rest
    else if rxs = SLIP_ST_DATA then
      if c = SLIP_SOF then
        if buf.length ≠ 0 then (SlipRecvResult.done buf.length, buf)
        else SlipFrameRecvCont maxLen SLIP_ST_DATA buf rest
      else if c = SLIP_ESC then SlipFrameRecvCont maxLen SLIP_ST_ESC_ESC buf rest
      else
        if buf.length ≥ maxLen then (SlipRecvResult.overflow buf.length, buf)
        else SlipFrameRecvCont maxLen SLIP_ST_DATA (buf ++ [c]) rest
    else if rxs = SLIP_ST_ESC_ESC then
      if c = SLIP_SOF_ESC then
        if buf.length ≥ maxLen then (SlipRecvResult.overflow buf.length, buf)
        else SlipFrameRecvCont maxLen SLIP_ST_DATA (buf ++ [SLIP_SOF]) rest
      else if c = SLIP_ST_ESC_ESC then
        if buf.length ≥ maxLen then (SlipRecvResult.overflow buf.length, buf)
        else SlipFrameRecvCont maxLen SLIP_ST_DATA (buf ++ [SLIP_ESC]) rest
      else (SlipRecvResult.protoErr buf.length, buf)
    else (SlipRecvResult.protoErr buf.length, buf)

/-- SlipFrameRecvPoll of slip.c: resets the receive sub-machine (state
SLIP_ST_SOF, position 0, capacity maxLen) and runs SlipFrameRecvCont. -/
def SlipFrameRecvPoll (maxLen : Nat) (input : List Nat) :
    SlipRecvResult × List Nat :=
  SlipFrameRecvCont maxLen SLIP_ST_SOF [] input

/-! ## Flash engine (src/flash.c, src/flash.h)

Bus writes are modelled as (address, data) pairs; the fixed command
cycles come from the constant tables in flash.h.  Flash status reads are
modelled as an explicit stream of 16-bit values. -/

/-- FLASH_RESET command cycles from flash.h. -/
def FlashResetWrites : List (Nat × Nat) := [(0x555, 0xF0)]

/-- FLASH_UNLOCK command cycles from flash.h. -/
def FlashUnlockWrites : List (Nat × Nat) := [(0x555, 0xAA), (0x2AA, 0x55)]

/-- FLASH_CHIP_ERASE command cycles from flash.h. -/
def FlashChipEraseWrites : List (Nat × Nat) :=
  [(0x555, 0x80), (0x555, 0xAA), (0x2AA, 0x55), (0x555, 0x10)]

/-- FLASH_SEC_ERASE command cycles from flash.h. -/
def FlashSecEraseWrites : List (Nat × Nat) :=
  [(0x555, 0x80), (0x555, 0xAA), (0x2AA, 0x55)]

/-- FLASH_WR_BUF command data (write-to-buffer). -/
def FLASH_WR_BUF : Nat := 0x25

/-- FLASH_PRG_BUF command data (program-buffer confirm). -/
def FLASH_PRG_BUF : Nat := 0x29

/-- FLASH_SEC_ERASE_WR command data (sector erase confirm, written at SA). -/
def FLASH_SEC_ERASE_WR : Nat := 0x30

/-- FLASH_SA_GET of flash.c: the current chip needs no computation. -/
def FLASH_SA_GET (addr : Nat) : Nat := addr

/-- Continuation condition of the FlashDataPoll do-while loop:
poll while DQ7 differs from bit 7 of the expected data and neither DQ5
nor DQ1 (mask 0x22) is set. -/
def dataPollBusy (data r : Nat) : Bool :=
  ((data ^^^ r) &&& 0x80 != 0) && (r &&& 0x22 == 0)

/-- The do-while read loop of FlashDataPoll: consume status reads while
dataPollBusy holds; return the read that exits the loop together with the
remaining stream.  none models the C spinning forever on an exhausted
stream. -/
def flashDataPollLoop (data : Nat) : List Nat → Option (Nat × List Nat)
  | [] => none
  | r :: rest =>
    if dataPollBusy data r then flashDataPollLoop data rest else some (r, rest)

/-- Outcome of FlashDataPoll: the returned code (0 OK, 1 error) and the
bus writes issued on the failure paths (Reset, and Unlock followed by
Reset for the write-to-buffer abort). -/
structure DataPollOut where
  ret : Nat
  writes : List (Nat × Nat)
deriving DecidableEq, Repr

/-- FlashDataPoll of flash.c.  The addr argument selects the polled
location in the C; here the status values it yields are the reads
stream, so addr is retained only for signature fidelity.  After the
do-while loop exits, the datasheet-mandated confirmation read decides the
outcome: a DQ7 match returns 0; otherwise Reset is issued if DQ5 is set,
Unlock then Reset if DQ1 is set, and 1 is returned. -/
def FlashDataPoll (addr data : Nat) (reads : List Nat) : Option DataPollOut :=
  match flashDataPollLoop data reads with
  | none => none
  | some (_, rest) =>
    match rest with
    | [] => none
    | r2 :: _ =>
      if (data ^^^ r2) &&& 0x80 = 0 then some ⟨0, []⟩
      else
        some ⟨1, (if r2 &&& 0x20 ≠ 0 then FlashResetWrites else []) ++
                 (if r2 &&& 0x02 ≠ 0 then FlashUnlockWrites ++ FlashResetWrites
                  else [])⟩

/-- Outcome of FlashErasePoll: the returned code (1 OK, 0 error, as the
flash.c body implements it) and the bus writes issued after the poll
loop. -/
structure ErasePollOut where
  ret : Nat
  writes : List (Nat × Nat)
deriving DecidableEq, Repr

/-- The do-while read loop of FlashErasePoll: wait until DQ7 or DQ5
(mask 0xA0) is set. -/
def flashErasePollLoop : List Nat → Option Nat
  | [] => none
  | r :: rest => if r &&& 0xA0 = 0 then flashErasePollLoop rest else some r

/-- FlashErasePoll of flash.c: poll until DQ7 or DQ5 is set; if DQ7 is
clear return 0 at once (note: the C returns before reaching the
FlashReset call, so no Reset write is issued on this path); on success
issue Reset and return 1. -/
def FlashErasePoll (reads : List Nat) : Option ErasePollOut :=
  match flashErasePollLoop reads with
  | none => none
  | some r =>
    if r &&& 0x80 = 0 then some ⟨0, []⟩
    else some ⟨1, FlashResetWrites⟩

/-- Outcome of FlashWriteBuf: the returned word count and the full list
of bus writes issued. -/
structure WriteBufOut where
  ret : Nat
  writes : List (Nat × Nat)
deriving DecidableEq, Repr

/-- FlashWriteBuf of flash.c.  The caller array is modelled as a function
from index to word because the C indexes it up to the computed count even
when that count exceeds wLen.  Mirrors the C exactly:
wc = MAX(wLen, 16 - (addr & 0xF)) - 1; Unlock; Write-to-Buffer at SA;
word count minus one at SA; wc+1 data words at consecutive addresses; the
program-buffer confirm at SA; then FlashDataPoll on the last word.
Returns 0 if wLen exceeds 16 (with no writes) or if the poll fails,
otherwise wc + 1. -/
def FlashWriteBuf (addr : Nat) (data : Nat → Nat) (wLen : Nat)
    (pollReads : List Nat) : Option WriteBufOut :=
  if wLen > 16 then some ⟨0, []⟩
  else
    let sa := FLASH_SA_GET addr
    let wc := max wLen (16 - (addr % 16)) - 1
    let bufWrites := (List.range (wc + 1)).map (fun i => (addr + i, data i))
    let writes := FlashUnlockWrites ++ [(sa, FLASH_WR_BUF)] ++ [(sa, wc)] ++
                  bufWrites ++ [(sa, FLASH_PRG_BUF)]
    match FlashDataPoll (addr + wc) (data wc) pollReads with
    | none => none
    | some p =>
      if p.ret ≠ 0 then some ⟨0, writes ++ p.writes⟩
      else some ⟨wc + 1, writes ++ p.writes⟩

/-- FlashChipErase of flash.c: Unlock, the chip-erase cycles, then
FlashErasePoll.  Returns the poll result code and all writes issued. -/
def FlashChipErase (reads : List Nat) : Option (Nat × List (Nat × Nat)) :=
  match FlashErasePoll reads with
  | none => none
  | some out =>
    some (out.ret, FlashUnlockWrites ++ FlashChipEraseWrites ++ out.writes)

/-- The DQ3 wait loop of FlashSectErase: read until DQ3 (0x08) is set,
then hand the remaining stream to the erase poll. -/
def flashDq3Wait : List Nat → Option (List Nat)
  | [] => none
  | r :: rest => if r &&& 0x08 = 0 then flashDq3Wait rest else some rest

/-- FlashSectErase of flash.c: Unlock, the sector-erase cycles, the 0x30
confirm at the sector address, the DQ3 wait, then FlashErasePoll. -/
def FlashSectErase (addr : Nat) (reads : List Nat) :
    Option (Nat × List (Nat × Nat)) :=
  let sa := FLASH_SA_GET addr
  let pre := FlashUnlockWrites ++ FlashSecEraseWrites ++ [(sa, FLASH_SEC_ERASE_WR)]
  match flashDq3Wait reads with
  | none => none
  | some rest =>
    match FlashErasePoll rest with
    | none => none
    | some out => some (out.ret, pre ++ out.writes)

/-! ## MDMA protocol accessors (src/mdma-pr.h)

Request frames are byte lists; out-of-range indexing, which the C never
performs on its fixed-size buffer, defaults to 0. -/

def MDMA_OK : Nat := 0

def MDMA_MANID_GET : Nat := 1

def MDMA_DEVID_GET : Nat := 2

def MDMA_READ : Nat := 3

def MDMA_CART_ERASE : Nat := 4

def MDMA_SECT_ERASE : Nat := 5

def MDMA_WRITE : Nat := 6

def MDMA_MAN_CTRL : Nat := 7

def MDMA_BOOTLOADER : Nat := 8

def MDMA_BUTTON_GET : Nat := 9

def MDMA_WIFI_CMD : Nat := 10

def MDMA_WIFI_CMD_LONG : Nat := 11

def MDMA_WIFI_CTRL : Nat := 12

def MDMA_ERR : Nat := 255

/-- MDMA_DWORD_AT: 32-bit little-endian value at byte offset pos. -/
def MDMA_DWORD_AT (v : List Nat) (pos : Nat) : Nat :=
  (v.getD (pos + 3) 0 <<< 24) ||| (v.getD (pos + 2) 0 <<< 16) |||
  (v.getD (pos + 1) 0 <<< 8) ||| v.getD pos 0

/-- MDMA_3BYTES_AT: 24-bit little-endian value at byte offset pos. -/
def MDMA_3BYTES_AT (v : List Nat) (pos : Nat) : Nat :=
  (v.getD (pos + 2) 0 <<< 16) ||| (v.getD (pos + 1) 0 <<< 8) ||| v.getD pos 0

/-- MDMA_WORD_AT: 16-bit little-endian value at byte offset pos. -/
def MDMA_WORD_AT (v : List Nat) (pos : Nat) : Nat :=
  (v.getD (pos + 1) 0 <<< 8) ||| v.getD pos 0

/-- MDMA_CMD: the opcode is byte 0 of the frame. -/
def MDMA_CMD (v : List Nat) : Nat := v.getD 0 0

/-- MDMA_ADDR: the 3-byte little-endian address at offset MDMA_ADDR_OFF = 3. -/
def MDMA_ADDR (v : List Nat) : Nat := MDMA_3BYTES_AT v 3

/-- MDMA_LENGTH: the 2-byte little-endian length at offset MDMA_LENGTH_OFF = 1. -/
def MDMA_LENGTH (v : List Nat) : Nat := MDMA_WORD_AT v 1

/-! ## System FSM and command dispatcher (src/sys_fsm.c, src/sys_fsm.h) -/

/-- Event codes from sys_fsm.h. -/
def SF_EVT_TIMER : Nat := 1

def SF_EVT_CIN : Nat := 2

def SF_EVT_COUT : Nat := 3

def SF_EVT_USB_ATT : Nat := 4

def SF_EVT_USB_DET : Nat := 5

def SF_EVT_USB_ERR : Nat := 6

def SF_EVT_DIN : Nat := 7

def SF_EVT_SW_PRESS : Nat := 9

def SF_EVT_SW_REL : Nat := 10

/-- Pushbutton status bits from sys_fsm.h. -/
def SF_SW_PRESSED : Nat := 0x01

def SF_SW_EVENT : Nat := 0x02

/-- The SfStat enum of sys_fsm.h; the states past SF_READY are declared
but never transitioned into by SfFsmCycle (except SF_WIFI_MOD being
tested in the timer handler). -/
inductive SfStat where
  | SF_IDLE
  | SF_STAB_WAIT
  | SF_CART_INIT
  | SF_READY
  | SF_MANID_GET
  | SF_DEVID_GET
  | SF_CART_READ
  | SF_CART_ERASE
  | SF_SECT_ERASE
  | SF_CART_PROG
  | SF_LINE_CTRL
  | SF_WIFI_MOD
deriving DecidableEq, Repr

/-- SfFlashData: cached manufacturer and device ids. -/
structure SfFlashData where
  manId : Nat
  devId : List Nat
deriving DecidableEq, Repr

/-- SfInstance: FSM state, the two SfFlags bits, flash id cache and
button status byte. -/
structure SfInstance where
  s : SfStat
  cart_in : Bool
  usb_ready : Bool
  fc : SfFlashData
  sw : Nat
deriving DecidableEq, Repr

/-- Observable side effects of an FSM cycle.  Flash bus writes appear as
flashWrite actions; reading the flash ids, the streaming READ/WRITE
loops and the WiFi forwarding of SfWiFiCmdProc appear as single summary
actions (no claim depends on their internal decomposition); usbSend
carries the reply buffer and the reply length. -/
inductive SfAct where
  | timerConfig (ms : Nat)
  | timerStart
  | ledOn
  | ledOff
  | cifClrRst
  | cifSetRst
  | cifSetTime
  | flashIdle
  | uartInit
  | flashGetManId
  | flashGetDevId
  | flashWrite (addr data : Nat)
  | flashSectErase (addr : Nat)
  | streamRead (addr length : Nat)
  | streamWrite (addr length : Nat)
  | wifiCmd (frame : List Nat)
  | gpioAction (mask rw value : List Nat)
  | jumpToBootloader
  | usbRecv
  | usbSend (buffer : List Nat) (len : Nat)
  | cmdProc (frame : List Nat)
deriving DecidableEq, Repr

/-- Hardware inputs a dispatch may consume: the flash ids read during
cartridge bring-up, the status streams of the erase polls, and the
summary outcome of the WiFi forwarding paths. -/
structure SfEnv where
  manId : Nat
  devId : List Nat
  chipEraseReads : List Nat
  sectEraseReads : List Nat
  wifiRepLen : Nat
  wifiReply : List Nat
deriving Repr

/-- Result of SfCmdProc: the updated instance (BUTTON_GET clears the
event bit), the reply length, the reply buffer (the C mutates the shared
request buffer in place) and the side-effect trace. -/
structure CmdOut where
  si : SfInstance
  repLen : Nat
  reply : List Nat
  acts : List SfAct
deriving Repr

/-- SfUnalignWordWrite of sys_fsm.c: store a 16-bit word little-endian at
byte offset pos of the buffer. -/
def SfUnalignWordWrite (dest : List Nat) (pos src : Nat) : List Nat :=
  (dest.set pos (src &&& 0xFF)).set (pos + 1) ((src >>> 8) &&& 0xFF)

/-- SfCmdProc of sys_fsm.c: decode the opcode and perform the command.
Branch-by-branch translation of the C switch; the READ/WRITE streaming
loops and the SfWiFiCmdProc body are summarised as single actions (with
the reply of the WiFi paths supplied by the environment), since no claim
concerns their internals.  The MAN_CTRL success reply is the buffer with
its first 7 bytes unchanged, exactly as the C leaves them.  none models
a flash poll that never terminates. -/
def SfCmdProc (env : SfEnv) (si : SfInstance) (data : List Nat) :
    Option CmdOut :=
  let cmd := MDMA_CMD data
  if cmd = MDMA_MANID_GET then
    some ⟨si, 3, SfUnalignWordWrite (data.set 0 MDMA_OK) 1 si.fc.manId, []⟩
  else if cmd = MDMA_DEVID_GET then
    some ⟨si, 7,
      SfUnalignWordWrite
        (SfUnalignWordWrite
          (SfUnalignWordWrite (data.set 0 MDMA_OK) 1 (si.fc.devId.getD 0 0))
          3 (si.fc.devId.getD 1 0))
        5 (si.fc.devId.getD 2 0), []⟩
  else if cmd = MDMA_READ then
    -- sends OK inline, then streams flash words packet by packet; repLen 0
    some ⟨si, 0, data.set 0 MDMA_OK,
      [SfAct.usbSend (data.set 0 MDMA_OK) 1,
       SfAct.streamRead (MDMA_ADDR data) (MDMA_LENGTH data)]⟩
  else if cmd = MDMA_CART_ERASE then
    match FlashChipErase env.chipEraseReads with
    | none => none
    | some (ret, ws) =>
      some ⟨si, 1, data.set 0 (if ret ≠ 0 then MDMA_OK else MDMA_ERR),
        ws.map (fun w => SfAct.flashWrite w.1 w.2)⟩
  else if cmd = MDMA_SECT_ERASE then
    -- the address handed to FlashSectErase is MDMA_DWORD_AT(data, 1),
    -- exactly as sys_fsm.c line 374 reads it
    match FlashSectErase (MDMA_DWORD_AT data 1) env.sectEraseReads with
    | none => none
    | some (ret, ws) =>
      some ⟨si, 1, data.set 0 (if ret ≠ 0 then MDMA_OK else MDMA_ERR),
        SfAct.flashSectErase (MDMA_DWORD_AT data 1) ::
          ws.map (fun w => SfAct.flashWrite w.1 w.2)⟩
  else if cmd = MDMA_WRITE then
    -- sends OK inline, then pulls packets and writes them in
    -- FlashWriteBuf-sized chunks; repLen 0
    some ⟨si, 0, data.set 0 MDMA_OK,
      [SfAct.usbSend (data.set 0 MDMA_OK) 1,
       SfAct.streamWrite (MDMA_ADDR data) (MDMA_LENGTH data)]⟩
  else if cmd = MDMA_MAN_CTRL then
    if data.getD 1 0 = 0x19 ∧ data.getD 2 0 = 0x85 ∧ data.getD 3 0 = 0xBA ∧
       data.getD 4 0 = 0xDA ∧ data.getD 5 0 = 0x55 then
      -- the C computes the readback into a local array it never copies
      -- into the reply buffer, so the reply bytes are the request bytes
      some ⟨si, 7, data,
        [SfAct.gpioAction ((data.drop 6).take 6) ((data.drop 12).take 6)
          ((data.drop 18).take 6)]⟩
    else some ⟨si, 1, data.set 0 MDMA_ERR, []⟩
  else if cmd = MDMA_BUTTON_GET then
    some ⟨{si with sw := si.sw &&& 0xFD}, 2,
      (data.set 0 MDMA_OK).set 1 si.sw, []⟩
  else if cmd = MDMA_BOOTLOADER then
    -- JumpToBootloader never returns; the fallthrough into the WiFi
    -- cases below it in the C switch is unreachable
    some ⟨si, 0, data, [SfAct.jumpToBootloader]⟩
  else if cmd = MDMA_WIFI_CMD ∨ cmd = MDMA_WIFI_CMD_LONG ∨
          cmd = MDMA_WIFI_CTRL then
    some ⟨si, env.wifiRepLen, env.wifiReply, [SfAct.wifiCmd data]⟩
  else
    some ⟨si, 1, data.set 0 MDMA_ERR, []⟩

/-- SfCartInit of sys_fsm.c: hold reset, start the 1 ms timer, set state
SF_CART_INIT, release reset, initialise the UART. -/
def SfCartInit (si : SfInstance) : SfInstance × List SfAct :=
  ({si with s := SfStat.SF_CART_INIT},
   [SfAct.cifClrRst, SfAct.timerConfig 1, SfAct.timerStart,
    SfAct.cifSetRst, SfAct.uartInit])

/-- SfCartRemove of sys_fsm.c: put the cartridge bus lines at idle and
return to SF_IDLE. -/
def SfCartRemove (si : SfInstance) : SfInstance × List SfAct :=
  ({si with s := SfStat.SF_IDLE},
   [SfAct.cifClrRst, SfAct.cifSetTime, SfAct.flashIdle])

/-- SfFsmCycle of sys_fsm.c: one cycle of the system FSM for the given
event.  frame is the packet SfDataRecv would deliver on SF_EVT_DIN (it
is ignored by every other event).  For SF_EVT_USB_DET / SF_EVT_USB_ERR
the C clears usb_ready and hits a break statement; the SfCartRemove call
written after that break is dead code, so the handler is flag-only. -/
def SfFsmCycle (env : SfEnv) (si : SfInstance) (evt : Nat)
    (frame : List Nat) : Option (SfInstance × List SfAct) :=
  if evt = SF_EVT_TIMER then
    if si.s = SfStat.SF_STAB_WAIT then
      if si.cart_in ∧ si.usb_ready then
        let p := SfCartInit si
        some (p.1, SfAct.ledOff :: p.2)
      else
        let p := SfCartRemove si
        some (p.1, SfAct.ledOff :: p.2)
    else if si.s = SfStat.SF_CART_INIT then
      some ({si with fc := ⟨env.manId, env.devId⟩, s := SfStat.SF_READY},
        [SfAct.flashGetManId, SfAct.flashGetDevId])
    else some (si, [])
  else if evt = SF_EVT_CIN then
    if si.s = SfStat.SF_IDLE then
      some ({si with cart_in := true, s := SfStat.SF_STAB_WAIT},
        [SfAct.timerConfig 1000, SfAct.timerStart, SfAct.ledOn])
    else some ({si with cart_in := true}, [])
  else if evt = SF_EVT_COUT then
    if si.s ≠ SfStat.SF_STAB_WAIT then
      let p := SfCartRemove {si with cart_in := false}
      some (p.1, p.2)
    else some ({si with cart_in := false}, [])
  else if evt = SF_EVT_USB_ATT then
    if si.cart_in ∧ si.s = SfStat.SF_IDLE then
      let p := SfCartInit {si with usb_ready := true}
      some (p.1, p.2)
    else some ({si with usb_ready := true}, [])
  else if evt = SF_EVT_USB_DET ∨ evt = SF_EVT_USB_ERR then
    some ({si with usb_ready := false}, [])
  else if evt = SF_EVT_DIN then
    if si.s = SfStat.SF_READY ∨ MDMA_CMD frame = MDMA_BOOTLOADER then
      match SfCmdProc env si frame with
      | none => none
      | some out =>
        some (out.si,
          SfAct.usbRecv :: SfAct.cmdProc frame :: out.acts ++
            (if out.repLen ≠ 0 then [SfAct.usbSend out.reply out.repLen]
             else []))
    else
      some (si, [SfAct.usbRecv, SfAct.usbSend (frame.set 0 MDMA_ERR) 1])
  else if evt = SF_EVT_SW_PRESS then
    some ({si with sw := SF_SW_EVENT ||| SF_SW_PRESSED}, [])
  else if evt = SF_EVT_SW_REL then
    some ({si with sw := SF_SW_EVENT}, [])
  else some (si, [])

/-- Run the FSM over a sequence of (event, frame) pairs, concatenating
the action traces of the individual cycles. -/
def SfRun (env : SfEnv) : SfInstance → List (Nat × List Nat) →
    Option (SfInstance × List SfAct)
  | si, [] => some (si, [])
  | si, (evt, frame) :: rest =>
    match SfFsmCycle env si evt frame with
    | none => none
    | some (si2, acts) =>
      match SfRun env si2 rest with
      | none => none
      | some (si3, acts2) => some (si3, acts ++ acts2)

/-- A concrete instance used by closed counterexamples and witnesses. -/
def siIdle : SfInstance :=
  ⟨SfStat.SF_IDLE, false, true, ⟨0, [0, 0, 0]⟩, 0⟩

/-- A concrete environment used by closed counterexamples and witnesses. -/
def envNull : SfEnv := ⟨0, [0, 0, 0], [], [], 0, []⟩

/-- A SECT_ERASE request frame whose 3-byte little-endian address field
at offsets 3 to 5 encodes 0x123456. -/
def sectFrame : List Nat := [5, 0, 0, 0x56, 0x34, 0x12]

/-- An environment whose sector-erase status stream reports DQ3 set and
then a successful erase completion. -/
def envSect : SfEnv := {envNull with sectEraseReads := [0x08, 0x80]}

/-- C1: the claim that SlipFrameSendPoll followed by SlipFrameRecvPoll
reproduces every payload, including bytes 0xC0 and 0xDB, FAILS on the
code: the sender escapes a payload 0xDB as the wire pair 0xDB 0xDD, but
the receiver of slip.c line 269 compares the byte after an escape with
the state-enum constant SLIP_ST_ESC_ESC (numerically 3) instead of the
escape code SLIP_ESC_ESC (0xDD), so it rejects the pair with the
protocol-error code 3 and an empty buffer.  The escaped-SOF pair 0xDB
0xDC still round-trips, isolating the typo to the ESC escape code. -/
theorem c1_slip_roundtrip_escaped_esc_fails :
    SlipFrameSendPoll [SLIP_ESC] = [SLIP_SOF, SLIP_ESC, SLIP_ESC_ESC, SLIP_SOF] ∧
    SlipFrameRecvPoll 8 (SlipFrameSendPoll [SLIP_ESC]) =
      (SlipRecvResult.protoErr 0, []) ∧
    SlipFrameRecvPoll 8 (SlipFrameSendPoll [SLIP_SOF]) =
      (SlipRecvResult.done 1, [SLIP_SOF]) := by decide

/-- C2: the claim that FlashWriteBuf truncates at the 16-word page
boundary FAILS on the code: flash.c line 181 computes the word count as
MAX(wLen, 16 - (addr & 0xF)) - 1 where the page-truncation intent (and
the note in flash.h) requires MIN.  At addr 0x1003 with 10 requested
words the code programs and returns 13 words (reading past the 10-word
source buffer) instead of fewer than 10; at addr 0x1003 with 14
requested words it programs address 0x1010, crossing the page boundary.
The aligned case addr 0x1000 with 16 words does return 16. -/
theorem c2_writebuf_page_boundary_bug :
    ((FlashWriteBuf 0x1003 (fun i => i) 10 [12, 12]).getD ⟨0, []⟩).ret = 13 ∧
    (FlashWriteBuf 0x1003 (fun i => i) 10 [12, 12]).isSome = true ∧
    ¬((FlashWriteBuf 0x1003 (fun i => i) 10 [12, 12]).getD ⟨0, []⟩).ret < 10 ∧
    (0x1010, 13) ∈
      ((FlashWriteBuf 0x1003 (fun i => i) 14 [13, 13]).getD ⟨0, []⟩).writes ∧
    ((FlashWriteBuf 0x1000 (fun i => i) 16 [15, 15]).getD ⟨0, []⟩).ret = 16 := by
  decide

/-- C3 counterexample: the claim that CartIn followed by CartOut before
the debounce timer fires leaves the system in Idle is FALSE on the code:
sys_fsm.c only calls SfCartRemove on SF_EVT_COUT when the state differs
from SF_STAB_WAIT, so after CartIn, CartOut from Idle the state is
SF_STAB_WAIT (DebounceWait), not SF_IDLE. -/
theorem c3_cartout_in_debounce_counterexample :
    (SfRun envNull siIdle [(SF_EVT_CIN, []), (SF_EVT_COUT, [])]).map
      (fun p => p.1.s) = some SfStat.SF_STAB_WAIT ∧
    SfStat.SF_STAB_WAIT ≠ SfStat.SF_IDLE := by decide

/-- C3 (amended): CartIn then CartOut from Idle, before any Timer event,
leaves the FSM in DebounceWait (SF_STAB_WAIT) with the inserted flag
cleared, and the only side effects are starting the debounce timer and
the LED; no CartInit side effect or cartridge-bus activity occurs.  The
pending debounce Timer event then returns the FSM to Idle through the
cart-removal path (bus idled), still with no cartridge bring-up. -/
theorem c3_cin_cout_stays_in_debounce (env : SfEnv) (si : SfInstance)
    (f1 f2 f3 : List Nat) (h : si.s = SfStat.SF_IDLE) :
    SfRun env si [(SF_EVT_CIN, f1), (SF_EVT_COUT, f2)] =
      some ({si with s := SfStat.SF_STAB_WAIT, cart_in := false},
        [SfAct.timerConfig 1000, SfAct.timerStart, SfAct.ledOn]) ∧
    SfRun env si [(SF_EVT_CIN, f1), (SF_EVT_COUT, f2), (SF_EVT_TIMER, f3)] =
      some ({si with s := SfStat.SF_IDLE, cart_in := false},
        [SfAct.timerConfig 1000, SfAct.timerStart, SfAct.ledOn,
         SfAct.ledOff, SfAct.cifClrRst, SfAct.cifSetTime, SfAct.flashIdle]) := by
  obtain ⟨s, ci, ur, fc, sw⟩ := si
  cases h
  exact ⟨rfl, rfl⟩

/-- C3 witness: the amended statement instantiated at a concrete idle
instance. -/
theorem c3_cin_cout_stays_in_debounce_witness :
    siIdle.s = SfStat.SF_IDLE ∧
    SfRun envNull siIdle [(SF_EVT_CIN, []), (SF_EVT_COUT, [])] =
      some ({siIdle with s := SfStat.SF_STAB_WAIT, cart_in := false},
        [SfAct.timerConfig 1000, SfAct.timerStart, SfAct.ledOn]) :=
  ⟨rfl, (c3_cin_cout_stays_in_debounce envNull siIdle [] [] [] rfl).1⟩

/-- C5: the claim that the dispatcher passes the 3-byte little-endian
address at offsets 3 to 5 to the sector-erase FAILS on the code:
sys_fsm.c line 374 reads the address with MDMA_DWORD_AT(data, 1), the
32-bit little-endian value at offsets 1 to 4, contradicting the frame
layout and the mdma-pr.h comment that MDMA_ADDR (offset 3) is the
address accessor for the sector-erase command.  For a frame encoding
address 0x123456 at offsets 3 to 5, the flash receives 0x34560000. -/
theorem c5_secterase_addr_bug :
    MDMA_3BYTES_AT sectFrame 3 = 0x123456 ∧
    MDMA_DWORD_AT sectFrame 1 = 0x34560000 ∧
    (SfCmdProc envSect siIdle sectFrame).map (fun out => out.acts.head?) =
      some (some (SfAct.flashSectErase 0x34560000)) ∧
    (0x34560000 : Nat) ≠ 0x123456 := by decide

/-- C6: the claim that FlashErasePoll issues a Reset in both the success
and the error outcome FAILS on the code: flash.c returns 0 as soon as it
sees DQ5 set with DQ7 clear, before reaching the FlashReset call, so the
error outcome issues no bus write at all; only the success outcome
issues the Reset cycle (0x555, 0xF0). -/
theorem c6_erasepoll_no_reset_on_error :
    FlashErasePoll [0x00, 0x20] = some ⟨0, []⟩ ∧
    FlashErasePoll [0x00, 0x80] = some ⟨1, FlashResetWrites⟩ ∧
    FlashResetWrites = [(0x555, 0xF0)] := by decide

/-- C9: processing SF_EVT_USB_DET or SF_EVT_USB_ERR only clears the
usb_ready flag: the state, flash identity, button status and
cartridge-inserted flag are unchanged and the action trace is empty (the
SfCartRemove call in sys_fsm.c after the break statement is dead code,
so no cartridge teardown happens). -/
theorem c9_usb_detach_flag_only (env : SfEnv) (si : SfInstance)
    (frame : List Nat) (evt : Nat)
    (h : evt = SF_EVT_USB_DET ∨ evt = SF_EVT_USB_ERR) :
    SfFsmCycle env si evt frame = some ({si with usb_ready := false}, []) := by
  rcases h with h | h <;> subst h <;> rfl

/-- C9 witness: the host-detach event at a concrete instance. -/
theorem c9_usb_detach_flag_only_witness :
    (SF_EVT_USB_DET = SF_EVT_USB_DET ∨ SF_EVT_USB_DET = SF_EVT_USB_ERR) ∧
    SfFsmCycle envNull siIdle SF_EVT_USB_DET [] =
      some ({siIdle with usb_ready := false}, []) :=
  ⟨Or.inl rfl,
   c9_usb_detach_flag_only envNull siIdle [] SF_EVT_USB_DET (Or.inl rfl)⟩

/-- C10: FlashWriteBuf called with more than 16 requested words returns
0 immediately and issues no flash bus write at all: the length check
precedes every FlashWrite in flash.c. -/
theorem c10_writebuf_rejects_over_16 (addr : Nat) (data : Nat → Nat)
    (wLen : Nat) (reads : List Nat) (h : 16 < wLen) :
    FlashWriteBuf addr data wLen reads = some ⟨0, []⟩ := by
  simp [FlashWriteBuf, h]

/-- C10 witness: 17 requested words are rejected with no writes. -/
theorem c10_writebuf_rejects_over_16_witness :
    (16 : Nat) < 17 ∧ FlashWriteBuf 0 (fun _ => 0) 17 [] = some ⟨0, []⟩ :=
  ⟨by decide, c10_writebuf_rejects_over_16 0 (fun _ => 0) 17 [] (by decide)⟩

/-- C4: on an SF_EVT_DIN event the command dispatcher runs exactly when
the state is SF_READY or the request opcode is MDMA_BOOTLOADER; in every
other case the FSM answers with a single ERR byte and performs no
dispatch and no bus action (the full trace is just the endpoint read and
the one-byte ERR send). -/
theorem c4_dispatch_only_ready_or_bootloader (env : SfEnv) (si : SfInstance)
    (frame : List Nat) :
    (∀ si2 acts, SfFsmCycle env si SF_EVT_DIN frame = some (si2, acts) →
      (SfAct.cmdProc frame ∈ acts ↔
        (si.s = SfStat.SF_READY ∨ MDMA_CMD frame = MDMA_BOOTLOADER))) ∧
    (¬(si.s = SfStat.SF_READY ∨ MDMA_CMD frame = MDMA_BOOTLOADER) →
      SfFsmCycle env si SF_EVT_DIN frame =
        some (si, [SfAct.usbRecv, SfAct.usbSend (frame.set 0 MDMA_ERR) 1])) := by
  have hdin : SfFsmCycle env si SF_EVT_DIN frame =
      if si.s = SfStat.SF_READY ∨ MDMA_CMD frame = MDMA_BOOTLOADER then
        match SfCmdProc env si frame with
        | none => none
        | some out =>
          some (out.si, SfAct.usbRecv :: SfAct.cmdProc frame :: out.acts ++
            (if out.repLen ≠ 0 then [SfAct.usbSend out.reply out.repLen]
             else []))
      else some (si, [SfAct.usbRecv, SfAct.usbSend (frame.set 0 MDMA_ERR) 1]) :=
    rfl
  by_cases hc : si.s = SfStat.SF_READY ∨ MDMA_CMD frame = MDMA_BOOTLOADER
  · refine ⟨?_, fun hn => absurd hc hn⟩
    intro si2 acts hcyc
    rw [hdin, if_pos hc] at hcyc
    cases hcmd : SfCmdProc env si frame with
    | none => rw [hcmd] at hcyc; cases hcyc
    | some out =>
      rw [hcmd] at hcyc
      obtain ⟨h1, h2⟩ := Prod.mk.injEq _ _ _ _ ▸ Option.some.inj hcyc
      subst h2
      simp [hc]
  · refine ⟨?_, fun _ => by rw [hdin, if_neg hc]⟩
    intro si2 acts hcyc
    rw [hdin, if_neg hc] at hcyc
    obtain ⟨h1, h2⟩ := Prod.mk.injEq _ _ _ _ ▸ Option.some.inj hcyc
    subst h2
    simp [hc]

/-- C4 witness: a READ request in Idle is answered with the single ERR
byte and no dispatch, while a BOOTLOADER request in Idle does reach the
dispatcher. -/
theorem c4_dispatch_only_ready_or_bootloader_witness :
    (¬(siIdle.s = SfStat.SF_READY ∨ MDMA_CMD [3] = MDMA_BOOTLOADER) ∧
     SfFsmCycle envNull siIdle SF_EVT_DIN [3] =
       some (siIdle, [SfAct.usbRecv, SfAct.usbSend ([3].set 0 MDMA_ERR) 1])) ∧
    (SfAct.cmdProc [8] ∈
        [SfAct.usbRecv, SfAct.cmdProc [8], SfAct.jumpToBootloader] ↔
      (siIdle.s = SfStat.SF_READY ∨ MDMA_CMD [8] = MDMA_BOOTLOADER)) :=
  ⟨⟨by decide,
    (c4_dispatch_only_ready_or_bootloader envNull siIdle [3]).2 (by decide)⟩,
   (c4_dispatch_only_ready_or_bootloader envNull siIdle [8]).1 siIdle
     [SfAct.usbRecv, SfAct.cmdProc [8], SfAct.jumpToBootloader] (by decide)⟩

/-- The do-while loop of FlashDataPoll exits at the first read that
falsifies the busy condition: the consumed prefix is all busy and the
exit read is not. -/
theorem flashDataPollLoop_split (data : Nat) :
    ∀ (reads : List Nat) (r0 : Nat) (rest : List Nat),
      flashDataPollLoop data reads = some (r0, rest) →
      ∃ busy, reads = busy ++ r0 :: rest ∧
        (∀ r ∈ busy, dataPollBusy data r = true) ∧
        dataPollBusy data r0 = false := by
  intro reads
  induction reads with
  | nil => intro r0 rest h; simp [flashDataPollLoop] at h
  | cons a tl ih =>
    intro r0 rest h
    by_cases hb : dataPollBusy data a
    · rw [flashDataPollLoop, if_pos hb] at h
      obtain ⟨busy, he, hall, hr0⟩ := ih r0 rest h
      refine ⟨a :: busy, by simp [he], ?_, hr0⟩
      intro r hr
      rcases List.mem_cons.mp hr with h1 | h1
      · exact h1 ▸ hb
      · exact hall r h1
    · rw [flashDataPollLoop, if_neg hb] at h
      obtain ⟨h1, h2⟩ := Prod.mk.injEq _ _ _ _ ▸ Option.some.inj h
      subst h1; subst h2
      exact ⟨[], by simp, by simp, Bool.not_eq_true _ ▸ hb⟩

/-- C7: FlashDataPoll realises the specified polling algorithm: the read
stream splits into a busy prefix (DQ7 mismatching the expected data bit
and neither DQ5 nor DQ1 set), a first read falsifying that condition,
and a confirmation re-read that alone decides the outcome: return 0 with
no recovery writes exactly when the re-read matches DQ7, otherwise
return 1 after issuing Reset when DQ5 is set and Unlock followed by
Reset when DQ1 is set. -/
theorem c7_datapoll_first_exit (addr data : Nat) (reads : List Nat)
    (out : DataPollOut) (h : FlashDataPoll addr data reads = some out) :
    ∃ busy r0 r1 post, reads = busy ++ r0 :: r1 :: post ∧
      (∀ r ∈ busy, dataPollBusy data r = true) ∧
      dataPollBusy data r0 = false ∧
      (out.ret = 0 ↔ (data ^^^ r1) &&& 0x80 = 0) ∧
      (out.ret = 0 → out.writes = []) ∧
      (out.ret ≠ 0 → out.ret = 1 ∧
        out.writes = (if r1 &&& 0x20 ≠ 0 then FlashResetWrites else []) ++
          (if r1 &&& 0x02 ≠ 0 then FlashUnlockWrites ++ FlashResetWrites
           else [])) := by
  unfold FlashDataPoll at h
  cases hl : flashDataPollLoop data reads with
  | none => rw [hl] at h; cases h
  | some pr =>
    obtain ⟨r0, rest⟩ := pr
    rw [hl] at h
    cases rest with
    | nil => cases h
    | cons r1 post =>
      obtain ⟨busy, he, hall, hr0⟩ :=
        flashDataPollLoop_split data reads r0 (r1 :: post) hl
      refine ⟨busy, r0, r1, post, he, hall, hr0, ?_⟩
      have hh : (if (data ^^^ r1) &&& 0x80 = 0 then some (⟨0, []⟩ : DataPollOut)
          else some ⟨1, (if r1 &&& 0x20 ≠ 0 then FlashResetWrites else []) ++
            (if r1 &&& 0x02 ≠ 0 then FlashUnlockWrites ++ FlashResetWrites
             else [])⟩) = some out := h
      by_cases hm : (data ^^^ r1) &&& 0x80 = 0
      · rw [if_pos hm] at hh
        cases Option.some.inj hh
        exact ⟨by simp [hm], fun _ => rfl, fun hr => absurd rfl hr⟩
      · rw [if_neg hm] at hh
        cases Option.some.inj hh
        exact ⟨by simp [hm], fun hr => absurd hr one_ne_zero,
          fun _ => ⟨rfl, rfl⟩⟩

/-- C7 witness: polling with expected data 0 over the stream 0x80, 0x00,
0x00 stays busy for one read, exits on the second, and the confirmation
read matches, giving success with no recovery writes. -/
theorem c7_datapoll_first_exit_witness :
    FlashDataPoll 0 0 [0x80, 0x00, 0x00] = some ⟨0, []⟩ ∧
    (∃ busy r0 r1 post, ([0x80, 0x00, 0x00] : List Nat) =
        busy ++ r0 :: r1 :: post ∧
      (∀ r ∈ busy, dataPollBusy 0 r = true) ∧
      dataPollBusy 0 r0 = false ∧
      ((DataPollOut.mk 0 []).ret = 0 ↔ (0 ^^^ r1) &&& 0x80 = 0) ∧
      ((DataPollOut.mk 0 []).ret = 0 → (DataPollOut.mk 0 []).writes = []) ∧
      ((DataPollOut.mk 0 []).ret ≠ 0 → (DataPollOut.mk 0 []).ret = 1 ∧
        (DataPollOut.mk 0 []).writes =
          (if r1 &&& 0x20 ≠ 0 then FlashResetWrites else []) ++
          (if r1 &&& 0x02 ≠ 0 then FlashUnlockWrites ++ FlashResetWrites
           else []))) :=
  ⟨by decide, c7_datapoll_first_exit 0 0 [0x80, 0x00, 0x00] ⟨0, []⟩ (by decide)⟩

/-- The receive sub-machine never lets the stored buffer grow past the
capacity, and an overflow return always reports exactly the capacity,
provided the buffer respects the capacity on entry. -/
theorem slipRecvCont_inv (maxLen : Nat) :
    ∀ (input : List Nat) (rxs : Nat) (buf : List Nat), buf.length ≤ maxLen →
      (SlipFrameRecvCont maxLen rxs buf input).2.length ≤ maxLen ∧
      ∀ n, (SlipFrameRecvCont maxLen rxs buf input).1 =
        SlipRecvResult.overflow n → n = maxLen := by
  intro input
  induction input with
  | nil =>
    intro rxs buf hb
    exact ⟨hb, fun n hn => by cases hn⟩
  | cons c rest ih =>
    intro rxs buf hb
    simp only [SlipFrameRecvCont]
    split_ifs with h1 h2 h3 h4 h5 h6 h7 h8 h9 h10 h11 h12 <;>
      first
        | exact ih _ buf hb
        | (refine ih _ (buf ++ [c]) ?_; simp; omega)
        | (refine ih _ (buf ++ [SLIP_SOF]) ?_; simp; omega)
        | (refine ih _ (buf ++ [SLIP_ESC]) ?_; simp; omega)
        | (refine ⟨hb, fun n hn => ?_⟩;
           have h2 := SlipRecvResult.overflow.inj hn; omega)
        | (exact ⟨hb, fun n hn => by cases hn⟩)

/-- C8: for every input stream and every buffer capacity, the frame
receive stores at most capacity-many bytes, and whenever it returns the
buffer-overflow result (return code 2) the reported length equals the
capacity; the overflow code 2 is distinct from the malformed-escape
protocol-error code 3. -/
theorem c8_recv_respects_capacity (maxLen : Nat) (input : List Nat) :
    (SlipFrameRecvPoll maxLen input).2.length ≤ maxLen ∧
    ∀ n, (SlipFrameRecvPoll maxLen input).1 = SlipRecvResult.overflow n →
      n = maxLen ∧ (SlipRecvResult.overflow n).code = 2 ∧
      (SlipRecvResult.protoErr n).code = 3 ∧
      (SlipRecvResult.overflow n).code ≠ (SlipRecvResult.protoErr n).code := by
  have h := slipRecvCont_inv maxLen input SLIP_ST_SOF [] (by simp)
  exact ⟨h.1, fun n hn =>
    ⟨h.2 n hn, rfl, rfl, by simp [SlipRecvResult.code]⟩⟩

/-- C8 witness: a two-byte buffer receiving a three-byte frame yields
the overflow result reporting length 2 and stores only two bytes. -/
theorem c8_recv_respects_capacity_witness :
    (SlipFrameRecvPoll 2 [0xC0, 5, 6, 7]).1 = SlipRecvResult.overflow 2 ∧
    (SlipFrameRecvPoll 2 [0xC0, 5, 6, 7]).2.length ≤ 2 ∧
    (2 = 2 ∧ (SlipRecvResult.overflow 2).code = 2 ∧
     (SlipRecvResult.protoErr 2).code = 3 ∧
     (SlipRecvResult.overflow 2).code ≠ (SlipRecvResult.protoErr 2).code) :=
  ⟨by decide, (c8_recv_respects_capacity 2 [0xC0, 5, 6, 7]).1,
   (c8_recv_respects_capacity 2 [0xC0, 5, 6, 7]).2 2 (by decide)⟩

end MdmaFw
